import Mathlib

/-!
Verification of the atlas-db reconciliation core (databaseResource.go).

The Go source is shallowly embedded as pure Lean functions.  All external
collaborators (listers, clientsets, the plugin registry, the event recorder)
are passed in as an explicit environment of pure lookup functions; every call
the routine makes and every effect it produces (status updates, events,
secret creations, plugin invocations) is recorded in a result trace.  A Go
panic (nil-pointer dereference or out-of-range slice index) is modelled as an
explicit `panicked` outcome that truncates the trace at the point of panic.
Of the two near-duplicate source files the canonical one embedded here is
src/atlas-db-controller/databaseResource.go (the evolution the specification
describes).
-/

namespace AtlasDB

/-- Status block of a Database resource (`Status.State`, `Status.Message`). -/
structure DatabaseStatus where
  state : String
  message : String
deriving DecidableEq, Repr

/-- `secretKeyRef {name, key}` inside a value source. -/
structure SecretKeyRef where
  name : String
  key : String
deriving DecidableEq, Repr

/-- A value-source reference (`DsnFrom` / `PasswordFrom`): a key in a secret. -/
structure ValueSource where
  secretKeyRef : SecretKeyRef
deriving DecidableEq, Repr

/-- One entry of `Database.Spec.Users`. -/
structure DBUser where
  name : String
  role : String
  password : String
  passwordFrom : Option ValueSource
deriving DecidableEq, Repr

/-- `Database.Spec`.  `users` is an `Option` because the Go field is a slice and
the source distinguishes a nil slice (`db.Spec.Users == nil`) from an empty
non-nil one: `none` embeds the nil slice, `some []` the empty non-nil slice. -/
structure DatabaseSpec where
  server : String
  serverType : String
  dsn : String
  dsnFrom : Option ValueSource
  users : Option (List DBUser)
deriving DecidableEq, Repr

/-- The Database custom resource.  `ns` is the Go `Namespace` field (the word
itself is a Lean keyword); `uid` stands for the object UID that the Kubernetes
controller-reference machinery compares. -/
structure Database where
  ns : String
  name : String
  uid : String
  spec : DatabaseSpec
  status : DatabaseStatus
deriving DecidableEq, Repr

/-- The parts of `DatabaseServer.Spec` the embedded code touches. -/
structure DatabaseServerSpec where
  dbHost : String
  servicePort : Int
deriving DecidableEq, Repr

/-- The DatabaseServer custom resource (read-only to the core). -/
structure DatabaseServer where
  name : String
  spec : DatabaseServerSpec
deriving DecidableEq, Repr

/-- A core/v1 Secret as the routine sees it: its name, the UID carried by its
controller owner-reference (if any), and its `StringData` map. -/
structure Secret where
  name : String
  controllerUid : Option String
  stringData : List (String × String)
deriving DecidableEq, Repr

/-- A Go `error` value as the routine distinguishes them: the apimachinery
"not found" condition versus anything else. -/
inductive GoErr where
  | notFound
  | other (msg : String)
deriving DecidableEq, Repr

/-- Renders an error for `%s` interpolation into messages. -/
def goErrString : GoErr → String
  | GoErr.notFound => "not found"
  | GoErr.other m => m

/-- `errors.IsNotFound` applied to a possibly-nil error (`none` is Go `nil`). -/
def isNotFound : Option GoErr → Bool
  | some GoErr.notFound => true
  | _ => false

/-- Digits-only decimal parse helper for the Atoi model. -/
def parseDecDigits (cs : List Char) : Option Nat :=
  if cs = [] then none
  else if cs.all Char.isDigit then
    some (cs.foldl (fun a c => a * 10 + (c.toNat - 48)) 0)
  else none

/-- Models the value `strconv.Atoi` yields when its error is discarded with
`_`: 0 on a syntax error, the int64-clamped value on a range error, and the
parsed value otherwise (optional single leading sign, base 10). -/
def atoiDiscardingError (s : String) : Int :=
  match s.data with
  | [] => 0
  | c :: rest =>
    if c = '-' then
      match parseDecDigits rest with
      | none => 0
      | some n =>
        if (n : Int) > 9223372036854775808 then -9223372036854775808 else -(n : Int)
    else if c = '+' then
      match parseDecDigits rest with
      | none => 0
      | some n =>
        if (n : Int) > 9223372036854775807 then 9223372036854775807 else (n : Int)
    else
      match parseDecDigits (c :: rest) with
      | none => 0
      | some n =>
        if (n : Int) > 9223372036854775807 then 9223372036854775807 else (n : Int)

/-- Go's `int32(i)` conversion: two's-complement truncation to 32 bits. -/
def toInt32 (i : Int) : Int :=
  let m := i % 4294967296
  if m < 2147483648 then m else m - 4294967296

/-- Splits a character list around every occurrence of `sep`; the result is
always non-empty.  This is Go `strings.Split(s, sep)` for the one-character
separators the source uses. -/
def splitOnCharList (sep : Char) : List Char → List (List Char)
  | [] => [[]]
  | c :: rest =>
    let r := splitOnCharList sep rest
    if c = sep then [] :: r
    else
      match r with
      | [] => [[c]]
      | h :: t => (c :: h) :: t

/-- Go `strings.Split` on strings, for a one-character separator. -/
def goSplit (s : String) (sep : Char) : List String :=
  (splitOnCharList sep s.data).map (fun cs => ⟨cs⟩)

/-- Embedding of `Controller.getHostAndPort`.  Indexing `[1]` into a
`strings.Split` result is partial, so the function returns `none` exactly
where the Go code panics with an index-out-of-range error (no `@` in the DSN,
or no `:` after the host).  The `strconv.Atoi` error is discarded by the
source (`portInt, _ :=`), hence `atoiDiscardingError`; the `int32` cast is
`toInt32`. -/
def getHostAndPort (dsn : String) : Option (String × Int) :=
  match (goSplit dsn '@')[1]? with
  | none => none
  | some afterAt =>
    let splitDSN := (goSplit afterAt '/').headD ("")
    let host := ((goSplit splitDSN ':').headD (""))
    match (goSplit splitDSN ':')[1]? with
    | none => none
    | some portStr => some (host, toInt32 (atoiDiscardingError portStr))

/-- C9: the documented example parses to host `db.example.com`, port 5432, and
the same DSN without its trailing path segment parses identically. -/
theorem getHostAndPort_example :
    getHostAndPort ("postgres://u:p@db.example.com:5432/mydb")
      = some (("db.example.com"), 5432)
    ∧ getHostAndPort ("postgres://u:p@db.example.com:5432")
      = some (("db.example.com"), 5432) := by
  constructor <;> rfl

/-- C1: on malformed DSNs the extraction does not return a parse error — it
panics.  A DSN missing its port segment (no `:` after the host) and a DSN
missing the `@` separator both hit an out-of-range slice index, modelled as
the `none` outcome; the Go signature has no error result at all. -/
theorem getHostAndPort_malformed_panics :
    getHostAndPort ("postgres://u:p@db.example.com") = none
    ∧ getHostAndPort ("postgres") = none := by
  constructor <;> rfl

/-- Modelled from the spec: the status-state string constants are defined
outside src/; section 6 of the spec fixes the enum `Pending|Error|Success|Created`. -/
def StatePending : String := "Pending"

/-- Modelled from the spec: see `StatePending`. -/
def StateError : String := "Error"

/-- Modelled from the spec: see `StatePending`. -/
def StateSuccess : String := "Success"

/-- Modelled from the spec: see `StatePending`. -/
def StateCreated : String := "Created"

/-- core/v1 `EventTypeNormal`. -/
def EventTypeNormal : String := "Normal"

/-- core/v1 `EventTypeWarning`. -/
def EventTypeWarning : String := "Warning"

/-- Modelled from the spec: the event reason constant for an ownership
conflict, defined outside src/. -/
def ErrResourceExists : String := "ErrResourceExists"

/-- Modelled from the spec: the warning message template for a secret that
already exists but is not owned by the reconciling Database (constant defined
outside src/; the spec gives the warning as "secret already exists"). -/
def MessageSecretExists (name : String) : String :=
  "Secret " ++ name ++ " already exists"

/-- Modelled from the spec: the normal-event message template for a freshly
created secret (constant defined outside src/). -/
def MessageSecretCreated (name : String) : String :=
  "Secret " ++ name ++ " created successfully"

/-- Modelled from the spec: the fixed synced message (constant defined outside
src/; spec section 6 gives "Database synced successfully"). -/
def MessageDatabaseSynced : String := "Database synced successfully"

/-- The plugin contract the core consumes: `SyncDatabase(db, dsn) → (state, error)`
and `Dsn(user, password, db, server) → dsn`. -/
structure DatabasePlugin where
  syncDatabase : Database → String → String × Option GoErr
  dsn : String → String → Database → DatabaseServer → String

/-- The external collaborators of the routine, as pure lookup functions:
listers and clientset calls (`dbsGet`, `serversGet`, `secretsGet`,
`secretsCreate`, `updateDatabase`), the secret/configmap value-source helpers
(`getSecretFromValueSource`, `getSecretByName`, both returning Go's
value-and-error pair), and the plugin registry (`newDBPlugin`,
`activePlugin`, the latter standing for `server.ActivePlugin(s).DatabasePlugin()`). -/
structure Env where
  dbsGet : String → String → Except GoErr Database
  serversGet : String → String → Except GoErr DatabaseServer
  getSecretFromValueSource : String → ValueSource → String × Option GoErr
  getSecretByName : String → String → String → String × Option GoErr
  newDBPlugin : String → Option DatabasePlugin
  activePlugin : DatabaseServer → Option DatabasePlugin
  secretsGet : String → String → Except GoErr Secret
  secretsCreate : String → Secret → Except GoErr Secret
  updateDatabase : String → Database → Option GoErr

/-- Result of `updateDatabaseStatus`: `pointee` is the value of the Database
object the caller passed in after the call returns (the Go caller's `db`
pointer target), `retDb`/`retErr` are the two return values (`none` for a nil
pointer / nil error), `persisted` lists the objects handed to the clientset
`Update` call, and `logs` the warning lines emitted. -/
structure UpdResult where
  pointee : Database
  retDb : Option Database
  retErr : Option GoErr
  persisted : List Database
  logs : List String
deriving DecidableEq, Repr

/-- Embedding of `Controller.updateDatabaseStatus`: deep-copy the object, set
`Status.State`/`Status.Message` on the copy, persist the copy; on persistence
failure log and return the original object with the error; on success
re-fetch the canonical object from the lister and return whatever that get
yields. -/
def updateDatabaseStatus (env : Env) (key : String) (db : Database)
    (state msg : String) : UpdResult :=
  let copy : Database := { db with status := { state := state, message := msg } }
  let rest : Option Database × Option GoErr × List String :=
    match env.updateDatabase db.ns copy with
    | some e =>
      (some db, some e,
        ["error updating status to \x27" ++ state ++ "\x27 for database \x27"
          ++ key ++ "\x27: " ++ goErrString e])
    | none =>
      match env.dbsGet db.ns db.name with
      | Except.error e => (none, some e, [])
      | Except.ok d => (some d, none, [])
  { pointee := db, retDb := rest.1, retErr := rest.2.1,
    persisted := [copy], logs := rest.2.2 }

/-- C5: `updateDatabaseStatus` sets the new state and message only on an
independent copy (the single object it hands to the persistence call), leaves
every field of the Database passed in unchanged, and whenever the persistence
call fails it returns the original pre-update object together with the error
— never a nil object. -/
theorem updateDatabaseStatus_frame_and_failure
    (env : Env) (key : String) (db : Database) (state msg : String) :
    (updateDatabaseStatus env key db state msg).pointee = db
    ∧ (updateDatabaseStatus env key db state msg).persisted
        = [{ db with status := { state := state, message := msg } }]
    ∧ ∀ e, env.updateDatabase db.ns
          { db with status := { state := state, message := msg } } = some e →
        (updateDatabaseStatus env key db state msg).retDb = some db
        ∧ (updateDatabaseStatus env key db state msg).retErr = some e := by
  refine ⟨rfl, rfl, ?_⟩
  intro e he
  constructor <;> simp [updateDatabaseStatus, he]

/-- A fixed Database used to instantiate hypotheses at concrete inputs. -/
def dbBase : Database :=
  { ns := "ns", name := "db", uid := "uid-1",
    spec := { server := "", serverType := "", dsn := "", dsnFrom := none,
              users := none },
    status := { state := "", message := "" } }

/-- A fixed environment used to instantiate hypotheses at concrete inputs. -/
def envBase : Env :=
  { dbsGet := fun _ _ => Except.error GoErr.notFound,
    serversGet := fun _ _ => Except.error GoErr.notFound,
    getSecretFromValueSource := fun _ _ => ("", some GoErr.notFound),
    getSecretByName := fun _ _ _ => ("", some GoErr.notFound),
    newDBPlugin := fun _ => none,
    activePlugin := fun _ => none,
    secretsGet := fun _ _ => Except.error GoErr.notFound,
    secretsCreate := fun _ s => Except.ok s,
    updateDatabase := fun _ _ => none }

/-- Witness for C5 at a concrete input whose persistence call fails. -/
theorem updateDatabaseStatus_frame_and_failure_witness :
    (updateDatabaseStatus
        { envBase with updateDatabase := fun _ _ => some (GoErr.other ("boom")) }
        ("ns/db") dbBase StateError ("m")).retDb = some dbBase
    ∧ (updateDatabaseStatus
        { envBase with updateDatabase := fun _ _ => some (GoErr.other ("boom")) }
        ("ns/db") dbBase StateError ("m")).retErr
        = some (GoErr.other ("boom")) :=
  (updateDatabaseStatus_frame_and_failure
    { envBase with updateDatabase := fun _ _ => some (GoErr.other ("boom")) }
    ("ns/db") dbBase StateError ("m")).2.2 (GoErr.other ("boom")) rfl

/-- The DSN sources the resolution block can actually look up. -/
inductive DsnSource where
  | fromValueSource (vs : ValueSource)
  | serverSecret (serverName : String)
deriving DecidableEq, Repr

/-- How the DSN-resolution block of `syncDatabase` leaves the routine:
with a resolved DSN, with an early `return err` (requeue), with an early
`return nil` (stop), or with a nil-pointer panic reading `s.Name`. -/
inductive DsnOutcome where
  | ok (dsn : String)
  | retErr (e : GoErr)
  | retNil
  | panicked
deriving DecidableEq, Repr

/-- Trace of the DSN-resolution block: the sources it looked up, the status
updates it attempted, and how it left the routine. -/
structure DsnResolution where
  lookups : List DsnSource
  statusUpdates : List (String × String)
  outcome : DsnOutcome
deriving DecidableEq, Repr

/-- Embedding of the DSN-resolution block of `syncDatabase` (databaseResource.go
lines 92-124): `Spec.Dsn` literal if non-empty; otherwise the `DsnFrom` value
source; otherwise the `"dsn"` key of the secret named after the referenced
server — reading `s.Name` off a nil server pointer there is the panic case. -/
def resolveDsn (env : Env) (key : String) (db : Database)
    (s : Option DatabaseServer) : DsnResolution :=
  if db.spec.dsn = "" then
    match db.spec.dsnFrom with
    | some vs =>
      let secretName := vs.secretKeyRef.name
      match env.getSecretFromValueSource db.ns vs with
      | (v, none) => ⟨[DsnSource.fromValueSource vs], [], DsnOutcome.ok v⟩
      | (_, some e) =>
        if isNotFound (some e) then
          ⟨[DsnSource.fromValueSource vs],
            [(StatePending, "waiting to get DSN for database \x60" ++ key
              ++ "\x60 from secret \x60" ++ secretName ++ "\x60")],
            DsnOutcome.retErr e⟩
        else
          ⟨[DsnSource.fromValueSource vs],
            [(StateError, "failed to get valid DSN for database \x60" ++ key
              ++ "\x60 from secret \x60" ++ secretName ++ "\x60")],
            DsnOutcome.retNil⟩
    | none =>
      match s with
      | none => ⟨[], [], DsnOutcome.panicked⟩
      | some srv =>
        match env.getSecretByName db.ns ("dsn") srv.name with
        | (v, none) => ⟨[DsnSource.serverSecret srv.name], [], DsnOutcome.ok v⟩
        | (_, some e) =>
          if isNotFound (some e) then
            ⟨[DsnSource.serverSecret srv.name],
              [(StatePending, "waiting to get DSN for database \x60" ++ key
                ++ "\x60 from secret \x60" ++ srv.name ++ "\x60")],
              DsnOutcome.retErr e⟩
          else
            ⟨[DsnSource.serverSecret srv.name],
              [(StateError, "failed to get valid DSN for database \x60" ++ key
                ++ "\x60 from secret \x60" ++ srv.name ++ "\x60")],
              DsnOutcome.retNil⟩
  else ⟨[], [], DsnOutcome.ok db.spec.dsn⟩

/-- C2: DSN resolution is strict first-match-wins.  A non-empty `Spec.Dsn`
literal is returned with no lookup at all, whatever `DsnFrom` or the secrets
hold; with empty `Spec.Dsn` and a `DsnFrom` reference, exactly that value
source is looked up and a successful lookup becomes the DSN; only with both
absent is exactly the server-named secret's `"dsn"` key looked up. -/
theorem resolveDsn_precedence (env : Env) (key : String) (db : Database)
    (s : Option DatabaseServer) :
    (db.spec.dsn ≠ "" →
      resolveDsn env key db s = ⟨[], [], DsnOutcome.ok db.spec.dsn⟩)
    ∧ (∀ vs, db.spec.dsn = "" → db.spec.dsnFrom = some vs →
        (resolveDsn env key db s).lookups = [DsnSource.fromValueSource vs]
        ∧ ∀ v, env.getSecretFromValueSource db.ns vs = (v, none) →
            (resolveDsn env key db s).outcome = DsnOutcome.ok v)
    ∧ (∀ srv, db.spec.dsn = "" → db.spec.dsnFrom = none → s = some srv →
        (resolveDsn env key db s).lookups = [DsnSource.serverSecret srv.name]
        ∧ ∀ v, env.getSecretByName db.ns ("dsn") srv.name = (v, none) →
            (resolveDsn env key db s).outcome = DsnOutcome.ok v) := by
  refine ⟨?_, ?_, ?_⟩
  · intro h
    simp [resolveDsn, h]
  · intro vs h hf
    rcases hvse : env.getSecretFromValueSource db.ns vs with ⟨v0, e0⟩
    constructor
    · cases e0 with
      | none => simp [resolveDsn, h, hf, hvse]
      | some e => cases e <;> simp [resolveDsn, h, hf, hvse, isNotFound]
    · intro v hv
      have h1 : v0 = v := congrArg Prod.fst hv
      have h2 : e0 = none := congrArg Prod.snd hv
      subst h1
      subst h2
      simp [resolveDsn, h, hf, hvse]
  · intro srv h hf hs
    subst hs
    rcases hvse : env.getSecretByName db.ns ("dsn") srv.name with ⟨v0, e0⟩
    constructor
    · cases e0 with
      | none => simp [resolveDsn, h, hf, hvse]
      | some e => cases e <;> simp [resolveDsn, h, hf, hvse, isNotFound]
    · intro v hv
      have h1 : v0 = v := congrArg Prod.fst hv
      have h2 : e0 = none := congrArg Prod.snd hv
      subst h1
      subst h2
      simp [resolveDsn, h, hf, hvse]

/-- A fixed value source used to instantiate hypotheses at concrete inputs. -/
def vsW : ValueSource := ⟨⟨"vs-secret", "dsn"⟩⟩

/-- A fixed DatabaseServer used to instantiate hypotheses at concrete inputs. -/
def srvW : DatabaseServer := ⟨"srv1", ⟨"srv-host", 5432⟩⟩

/-- Witness for C2: the three precedence cases evaluated at concrete inputs. -/
theorem resolveDsn_precedence_witness :
    (resolveDsn envBase ("ns/db")
        { dbBase with spec := { dbBase.spec with dsn := "literal" } } none
      = ⟨[], [], DsnOutcome.ok ("literal")⟩)
    ∧ ((resolveDsn { envBase with getSecretFromValueSource := fun _ _ => ("from-vs", none) }
          ("ns/db") { dbBase with spec := { dbBase.spec with dsnFrom := some vsW } }
          none).outcome = DsnOutcome.ok ("from-vs"))
    ∧ ((resolveDsn { envBase with getSecretByName := fun _ _ _ => ("from-server", none) }
          ("ns/db") dbBase (some srvW)).lookups = [DsnSource.serverSecret ("srv1")])
    ∧ ((resolveDsn { envBase with getSecretByName := fun _ _ _ => ("from-server", none) }
          ("ns/db") dbBase (some srvW)).outcome = DsnOutcome.ok ("from-server")) := by
  refine ⟨?_, ?_, ?_, ?_⟩
  · exact (resolveDsn_precedence envBase ("ns/db")
      { dbBase with spec := { dbBase.spec with dsn := "literal" } } none).1
      (by decide)
  · exact ((resolveDsn_precedence
      { envBase with getSecretFromValueSource := fun _ _ => ("from-vs", none) }
      ("ns/db") { dbBase with spec := { dbBase.spec with dsnFrom := some vsW } }
      none).2.1 vsW rfl rfl).2 ("from-vs") rfl
  · exact ((resolveDsn_precedence
      { envBase with getSecretByName := fun _ _ _ => ("from-server", none) }
      ("ns/db") dbBase (some srvW)).2.2 srvW rfl rfl rfl).1
  · exact ((resolveDsn_precedence
      { envBase with getSecretByName := fun _ _ _ => ("from-server", none) }
      ("ns/db") dbBase (some srvW)).2.2 srvW rfl rfl rfl).2 ("from-server") rfl

/-- How a routine invocation ends: a Go `return` with a possibly-nil error, or
a runtime panic (nil-pointer dereference / out-of-range index). -/
inductive RunRet where
  | ret (e : Option GoErr)
  | panicked
deriving DecidableEq, Repr

/-- An event handed to the event recorder: `(eventtype, reason, message)`. -/
structure GoEvent where
  eventtype : String
  reason : String
  message : String
deriving DecidableEq, Repr

/-- `metav1.IsControlledBy` on a non-nil secret: true iff the secret carries a
controller owner-reference whose UID is the owner's. -/
def isControlledBy (sec : Secret) (db : Database) : Bool :=
  match sec.controllerUid with
  | some u => u == db.uid
  | none => false

/-- Modelled from the spec: `c.objMeta(db, "Secret")` is defined outside src/;
per the spec it names the derived secret after the Database and sets a
controller-reference back to it, and the created secret's data is the
`{"dsn": ...}` map the call site passes. -/
def ownedSecret (db : Database) (dsn : String) : Secret :=
  { name := db.name, controllerUid := some db.uid, stringData := [("dsn", dsn)] }

/-- The mutable locals of the user loop in `syncDatabaseSecret` (`secret`,
`err`, `dsn`), the effects accumulated so far, and whether the loop body
already left the function (`early`). -/
structure SecretLoopState where
  secret : Option Secret
  err : Option GoErr
  dsn : String
  creates : List Secret
  pluginDsnCalls : List String
  events : List GoEvent
  statusUpdates : List (String × String)
  early : Option RunRet
deriving DecidableEq, Repr

/-- The `for _, user := range db.Spec.Users` loop of `syncDatabaseSecret`: for
each user of role `admin`, while `err` is the not-found condition, render a
DSN via the plugin (synthesizing an ephemeral server from the resolved DSN's
host and port when no DatabaseServer was referenced — `getHostAndPort` may
panic there) and create the owned secret; a successful create replaces
`secret`/`err`, a failed one records an Error status and returns the error. -/
def secretUserLoop (env : Env) (key : String) (db : Database)
    (dbServer : Option DatabaseServer) (dbPlugin : DatabasePlugin) :
    List DBUser → SecretLoopState → SecretLoopState
  | [], st => st
  | u :: rest, st =>
    if u.role = "admin" then
      if isNotFound st.err then
        let d? : Option String :=
          match dbServer with
          | some srv => some (dbPlugin.dsn u.name u.password db srv)
          | none =>
            match getHostAndPort st.dsn with
            | none => none
            | some (host, port) =>
              some (dbPlugin.dsn u.name u.password db ⟨"", ⟨host, port⟩⟩)
        match d? with
        | none => { st with early := some RunRet.panicked }
        | some d =>
          match env.secretsCreate db.ns (ownedSecret db d) with
          | Except.error e =>
            let msg := "failed to create secret \x27" ++ key ++ "\x27: "
              ++ goErrString e
            let _u := updateDatabaseStatus env key db StateError msg
            { st with
              dsn := d,
              secret := none,
              pluginDsnCalls := st.pluginDsnCalls ++ [u.name],
              statusUpdates := st.statusUpdates ++ [(StateError, msg)],
              early := some (RunRet.ret (some e)) }
          | Except.ok s2 =>
            secretUserLoop env key db dbServer dbPlugin rest
              { st with
                secret := some s2, err := none, dsn := d,
                creates := st.creates ++ [ownedSecret db d],
                pluginDsnCalls := st.pluginDsnCalls ++ [u.name],
                events := st.events
                  ++ [⟨EventTypeNormal, StateCreated, MessageSecretCreated s2.name⟩] }
      else secretUserLoop env key db dbServer dbPlugin rest st
    else secretUserLoop env key db dbServer dbPlugin rest st

/-- Full trace of one `syncDatabaseSecret` invocation. -/
structure SecretSyncResult where
  gets : List String
  creates : List Secret
  pluginDsnCalls : List String
  events : List GoEvent
  statusUpdates : List (String × String)
  outcome : RunRet
deriving DecidableEq, Repr

/-- The code after the user loop of `syncDatabaseSecret`: the ownership check.
`metav1.IsControlledBy` dereferences the `secret` pointer, so a still-nil
`secret` (fetch said not-found and no admin user created one) is a panic; a
secret not controlled by this Database yields the warning event and a non-nil
error; an owned secret returns nil. -/
def secretSyncTail (db : Database) (st : SecretLoopState) : SecretSyncResult :=
  match st.early with
  | some r =>
    ⟨[db.name], st.creates, st.pluginDsnCalls, st.events, st.statusUpdates, r⟩
  | none =>
    match st.secret with
    | none =>
      ⟨[db.name], st.creates, st.pluginDsnCalls, st.events, st.statusUpdates,
        RunRet.panicked⟩
    | some sec =>
      if isControlledBy sec db then
        ⟨[db.name], st.creates, st.pluginDsnCalls, st.events, st.statusUpdates,
          RunRet.ret none⟩
      else
        ⟨[db.name], st.creates, st.pluginDsnCalls,
          st.events ++ [⟨EventTypeWarning, ErrResourceExists,
            MessageSecretExists sec.name⟩],
          st.statusUpdates,
          RunRet.ret (some (GoErr.other (MessageSecretExists sec.name)))⟩

/-- Embedding of `Controller.syncDatabaseSecret` (databaseResource.go lines
164-225).  A nil `Spec.Users` slice returns immediately; otherwise the secret
named after the Database is fetched (a non-not-found fetch error is an Error
status and a returned error), the admin-user creation loop runs, and the
ownership check decides the outcome. -/
def syncDatabaseSecret (env : Env) (key dsn : String) (db : Database)
    (dbServer : Option DatabaseServer) (dbPlugin : DatabasePlugin) :
    SecretSyncResult :=
  match db.spec.users with
  | none => ⟨[], [], [], [], [], RunRet.ret none⟩
  | some users =>
    match env.secretsGet db.ns db.name with
    | Except.error (GoErr.other m) =>
      let msg := "failed to get secret \x27" ++ key ++ "\x27: " ++ m
      let _u := updateDatabaseStatus env key db StateError msg
      ⟨[db.name], [], [], [], [(StateError, msg)],
        RunRet.ret (some (GoErr.other m))⟩
    | Except.error GoErr.notFound =>
      secretSyncTail db
        (secretUserLoop env key db dbServer dbPlugin users
          ⟨none, some GoErr.notFound, dsn, [], [], [], [], none⟩)
    | Except.ok s0 =>
      secretSyncTail db
        (secretUserLoop env key db dbServer dbPlugin users
          ⟨some s0, none, dsn, [], [], [], [], none⟩)

/-- A fixed plugin used to instantiate hypotheses at concrete inputs. -/
def pluginW : DatabasePlugin :=
  { syncDatabase := fun _ _ => (StateSuccess, none),
    dsn := fun u p _ srv =>
      u ++ ":" ++ p ++ "@" ++ srv.spec.dbHost ++ ":" ++ toString srv.spec.servicePort }

/-- While `err` is not the not-found condition, the admin loop creates
nothing and leaves its state untouched. -/
theorem secretUserLoop_no_notFound (env : Env) (key : String) (db : Database)
    (dbServer : Option DatabaseServer) (dbPlugin : DatabasePlugin) :
    ∀ (users : List DBUser) (st : SecretLoopState), st.err = none →
      secretUserLoop env key db dbServer dbPlugin users st = st := by
  intro users
  induction users with
  | nil =>
    intro st h
    rfl
  | cons u rest ih =>
    intro st h
    by_cases hr : u.role = "admin"
    · simp [secretUserLoop, hr, h, isNotFound, ih st h]
    · simp [secretUserLoop, hr, ih st h]

/-- Counterexample for C6: a Database whose `Spec.Users` is the empty (but
present, i.e. non-nil) list is not a no-op — the secret fetch still happens,
and with no secret found the ownership check then dereferences a nil secret
pointer, so the call does not even return nil. -/
theorem syncDatabaseSecret_emptyUsers_counterexample :
    (syncDatabaseSecret envBase ("ns/db") ("d")
        { dbBase with spec := { dbBase.spec with users := some [] } }
        none pluginW).gets ≠ []
    ∧ (syncDatabaseSecret envBase ("ns/db") ("d")
        { dbBase with spec := { dbBase.spec with users := some [] } }
        none pluginW).outcome ≠ RunRet.ret none := by
  constructor <;> decide

/-- C6 (amended): for every Database whose `Spec.Users` slice is nil (absent),
`syncDatabaseSecret` is a no-op: it returns nil, performs no secret fetch or
creation, and emits no event.  (An empty-but-present list is not covered: the
source tests `db.Spec.Users == nil`, so the fetch still occurs for it.) -/
theorem syncDatabaseSecret_nilUsers_noop (env : Env) (key dsn : String)
    (db : Database) (dbServer : Option DatabaseServer)
    (dbPlugin : DatabasePlugin) (h : db.spec.users = none) :
    syncDatabaseSecret env key dsn db dbServer dbPlugin
      = ⟨[], [], [], [], [], RunRet.ret none⟩ := by
  simp [syncDatabaseSecret, h]

/-- Witness for C6 (amended) at a concrete nil-Users Database. -/
theorem syncDatabaseSecret_nilUsers_noop_witness :
    syncDatabaseSecret envBase ("ns/db") ("d") dbBase none pluginW
      = ⟨[], [], [], [], [], RunRet.ret none⟩ :=
  syncDatabaseSecret_nilUsers_noop envBase ("ns/db") ("d") dbBase none pluginW rfl

/-- Counterexample for C7: when `Spec.Users` is nil, a pre-existing foreign
secret (same name, no controller-reference to this Database) draws no warning
event and no error — the routine returns nil before ever looking. -/
theorem syncDatabaseSecret_conflict_counterexample :
    (syncDatabaseSecret
        { envBase with
            secretsGet := fun _ _ =>
              Except.ok ⟨"db", some ("someone-else"), []⟩ }
        ("ns/db") ("d") dbBase none pluginW).events = []
    ∧ (syncDatabaseSecret
        { envBase with
            secretsGet := fun _ _ =>
              Except.ok ⟨"db", some ("someone-else"), []⟩ }
        ("ns/db") ("d") dbBase none pluginW).outcome = RunRet.ret none := by
  constructor <;> rfl

/-- C7 (amended): for every reconciliation with a present (non-nil)
`Spec.Users` list where the secret named after the Database exists but is not
controlled by it, `syncDatabaseSecret` records exactly one warning event,
returns a non-nil (and non-not-found) error, and neither creates nor writes
any secret. -/
theorem syncDatabaseSecret_ownership_conflict (env : Env) (key dsn : String)
    (db : Database) (dbServer : Option DatabaseServer)
    (dbPlugin : DatabasePlugin) (us : List DBUser) (sec : Secret)
    (hu : db.spec.users = some us)
    (hget : env.secretsGet db.ns db.name = Except.ok sec)
    (hown : isControlledBy sec db = false) :
    syncDatabaseSecret env key dsn db dbServer dbPlugin
      = ⟨[db.name], [], [],
          [⟨EventTypeWarning, ErrResourceExists, MessageSecretExists sec.name⟩],
          [], RunRet.ret (some (GoErr.other (MessageSecretExists sec.name)))⟩ := by
  simp only [syncDatabaseSecret, hu, hget]
  rw [secretUserLoop_no_notFound env key db dbServer dbPlugin us
    ⟨some sec, none, dsn, [], [], [], [], none⟩ rfl]
  simp [secretSyncTail, hown]

/-- Witness for C7 (amended) at a concrete foreign secret. -/
theorem syncDatabaseSecret_ownership_conflict_witness :
    syncDatabaseSecret
        { envBase with
            secretsGet := fun _ _ =>
              Except.ok ⟨"db", some ("someone-else"), []⟩ }
        ("ns/db") ("d")
        { dbBase with
            spec := { dbBase.spec with
              users := some [⟨"alice", "admin", "pw", none⟩] } }
        none pluginW
      = ⟨[("db")], [], [],
          [⟨EventTypeWarning, ErrResourceExists, MessageSecretExists ("db")⟩],
          [], RunRet.ret (some (GoErr.other (MessageSecretExists ("db"))))⟩ :=
  syncDatabaseSecret_ownership_conflict
    { envBase with
        secretsGet := fun _ _ =>
          Except.ok ⟨"db", some ("someone-else"), []⟩ }
    ("ns/db") ("d")
    { dbBase with
        spec := { dbBase.spec with
          users := some [⟨"alice", "admin", "pw", none⟩] } }
    none pluginW [⟨"alice", "admin", "pw", none⟩] ⟨"db", some ("someone-else"), []⟩
    rfl rfl rfl

/-- `cache.SplitMetaNamespaceKey`: an optional namespace prefix before `/`;
more than one `/` is an error. -/
def splitMetaNamespaceKey (key : String) : Except GoErr (String × String) :=
  match goSplit key '/' with
  | [name] => Except.ok (("", name))
  | [ns, name] => Except.ok ((ns, name))
  | _ => Except.error (GoErr.other ("unexpected key format: " ++ key))

/-- Result of the `PasswordFrom` resolution loop in `syncDatabase`: the final
value of the `Spec.Users` slice the loop writes into (on the cache-owned
object), the value sources it looked up, the status updates it attempted, and
the error it returned early with, if any. -/
structure PwResolution where
  users : List DBUser
  lookups : List ValueSource
  statusUpdates : List (String × String)
  earlyErr : Option GoErr
deriving DecidableEq, Repr

/-- The `for index, user := range db.Spec.Users` loop of `syncDatabase`
(databaseResource.go lines 127-139): for each user with a `PasswordFrom`
reference the password is looked up; a not-found lookup sets a Pending status
and returns the error (users before it stay overwritten); any other lookup
result — including the value accompanying a non-not-found error, whose check
falls through in the source — is assigned to `db.Spec.Users[index].Password`
in place. -/
def resolveUserPasswords (env : Env) (ns : String) : List DBUser → PwResolution
  | [] => ⟨[], [], [], none⟩
  | u :: rest =>
    match u.passwordFrom with
    | none =>
      let r := resolveUserPasswords env ns rest
      ⟨u :: r.users, r.lookups, r.statusUpdates, r.earlyErr⟩
    | some vs =>
      match env.getSecretFromValueSource ns vs with
      | (passwd, none) =>
        let r := resolveUserPasswords env ns rest
        ⟨{ u with password := passwd } :: r.users, vs :: r.lookups,
          r.statusUpdates, r.earlyErr⟩
      | (passwd, some e) =>
        if isNotFound (some e) then
          ⟨u :: rest, [vs],
            [(StatePending, "waiting for secret or configmap for " ++ u.name)],
            some e⟩
        else
          let r := resolveUserPasswords env ns rest
          ⟨{ u with password := passwd } :: r.users, vs :: r.lookups,
            r.statusUpdates, r.earlyErr⟩

/-- Full trace of one `syncDatabase` invocation.  `finalDb` is the value of
the lister-cached Database object when the routine returns — the object the
routine's `db` pointer aliases, which the password loop writes into —
or `none` when the initial fetch failed. -/
structure SyncResult where
  ret : RunRet
  statusUpdates : List (String × String)
  events : List GoEvent
  dsnLookups : List DsnSource
  resolvedDsn : Option String
  pwLookups : List ValueSource
  secretGets : List String
  secretCreates : List Secret
  pluginSyncCalls : List String
  pluginDsnCalls : List String
  finalDb : Option Database
deriving DecidableEq, Repr

/-- A `syncDatabase` trace that ended before the Database was loaded. -/
def emptySyncResult (r : RunRet) : SyncResult :=
  ⟨r, [], [], [], none, [], [], [], [], [], none⟩

/-- Embedding of `Controller.syncDatabase` from the server fetch onward
(databaseResource.go lines 51-161), for an already-fetched Database `db`;
the initial-status step is in the `syncDatabase` wrapper.  Every
`updateDatabaseStatus` return value in this stretch of the source is
discarded, so status updates appear in the trace as the attempted
`(state, message)` pairs and the routine's result does not depend on the
persistence outcome. -/
def syncDatabaseLoaded (env : Env) (key ns : String) (db : Database) : SyncResult :=
  let serverFetch : Except GoErr (Option DatabaseServer) :=
    if db.spec.server = "" then Except.ok none
    else
      match env.serversGet ns db.spec.server with
      | Except.error e => Except.error e
      | Except.ok srv => Except.ok (some srv)
  match serverFetch with
  | Except.error e =>
    let su :=
      if isNotFound (some e) then
        [(StatePending, "waiting for database server \x27" ++ ns ++ "/"
          ++ db.spec.server ++ "\x27")]
      else []
    ⟨RunRet.ret (some e), su, [], [], none, [], [], [], [], [], some db⟩
  | Except.ok s =>
    if db.spec.serverType = "" ∧ s = none then
      let msg := "database \x27" ++ key ++ "\x27 has no serverType or server set"
      ⟨RunRet.ret none, [(StateError, msg)], [], [], none, [], [], [], [], [],
        some db⟩
    else
      let p? : Option DatabasePlugin :=
        if db.spec.serverType ≠ "" then env.newDBPlugin db.spec.serverType
        else
          match s with
          | some srv => env.activePlugin srv
          | none => none
      match p? with
      | none =>
        let msg := "database \x27" ++ key
          ++ "\x27 does not have a valid database plugin"
        ⟨RunRet.ret none, [(StateError, msg)], [], [], none, [], [], [], [], [],
          some db⟩
      | some p =>
        let r := resolveDsn env key db s
        match r.outcome with
        | DsnOutcome.panicked =>
          ⟨RunRet.panicked, r.statusUpdates, [], r.lookups, none, [], [], [],
            [], [], some db⟩
        | DsnOutcome.retErr e =>
          ⟨RunRet.ret (some e), r.statusUpdates, [], r.lookups, none, [], [],
            [], [], [], some db⟩
        | DsnOutcome.retNil =>
          ⟨RunRet.ret none, r.statusUpdates, [], r.lookups, none, [], [], [],
            [], [], some db⟩
        | DsnOutcome.ok dsn =>
          let pw : PwResolution :=
            match db.spec.users with
            | none => ⟨[], [], [], none⟩
            | some us => resolveUserPasswords env db.ns us
          let db1 : Database :=
            match db.spec.users with
            | none => db
            | some _ =>
              { db with spec := { db.spec with users := some pw.users } }
          match pw.earlyErr with
          | some e =>
            ⟨RunRet.ret (some e), r.statusUpdates ++ pw.statusUpdates, [],
              r.lookups, some dsn, pw.lookups, [], [], [], [], some db1⟩
          | none =>
            match p.syncDatabase db1 dsn with
            | (_, some e) =>
              let msg := "error syncing database \x27" ++ key ++ "\x27: "
                ++ goErrString e
              ⟨RunRet.ret (some e),
                r.statusUpdates ++ pw.statusUpdates ++ [(StateError, msg)], [],
                r.lookups, some dsn, pw.lookups, [], [], [dsn], [], some db1⟩
            | (state, none) =>
              let createdStep : Option (List GoEvent) :=
                if state = StateCreated then
                  match s with
                  | none => none
                  | some srv =>
                    some [⟨EventTypeNormal, StateCreated, "Database \x22"
                      ++ srv.name ++ "\x22 & Users created successfully"⟩]
                else some []
              match createdStep with
              | none =>
                ⟨RunRet.panicked, r.statusUpdates ++ pw.statusUpdates, [],
                  r.lookups, some dsn, pw.lookups, [], [], [dsn], [], some db1⟩
              | some evs =>
                let sec := syncDatabaseSecret env key dsn db1 s p
                match sec.outcome with
                | RunRet.panicked =>
                  ⟨RunRet.panicked,
                    r.statusUpdates ++ pw.statusUpdates ++ sec.statusUpdates,
                    evs ++ sec.events, r.lookups, some dsn, pw.lookups,
                    sec.gets, sec.creates, [dsn], sec.pluginDsnCalls, some db1⟩
                | RunRet.ret (some e) =>
                  let msg := "error syncing database secrets \x27" ++ key
                    ++ "\x27: " ++ goErrString e
                  ⟨RunRet.ret none,
                    r.statusUpdates ++ pw.statusUpdates ++ sec.statusUpdates
                      ++ [(StateError, msg)],
                    evs ++ sec.events, r.lookups, some dsn, pw.lookups,
                    sec.gets, sec.creates, [dsn], sec.pluginDsnCalls, some db1⟩
                | RunRet.ret none =>
                  ⟨RunRet.ret none,
                    r.statusUpdates ++ pw.statusUpdates ++ sec.statusUpdates
                      ++ [(StateSuccess, MessageDatabaseSynced)],
                    evs ++ sec.events, r.lookups, some dsn, pw.lookups,
                    sec.gets, sec.creates, [dsn], sec.pluginDsnCalls, some db1⟩

/-- Embedding of `Controller.syncDatabase` (databaseResource.go lines 28-162):
split the key (malformed keys are logged and dropped), fetch the Database
(not-found is dropped, other errors requeue), set an initial Pending status
when the status is unset (the source discards the persistence result), then
run the loaded phase. -/
def syncDatabase (env : Env) (key : String) : SyncResult :=
  match splitMetaNamespaceKey key with
  | Except.error _ => emptySyncResult (RunRet.ret none)
  | Except.ok (ns, name) =>
    match env.dbsGet ns name with
    | Except.error e =>
      if isNotFound (some e) then emptySyncResult (RunRet.ret none)
      else emptySyncResult (RunRet.ret (some e))
    | Except.ok db =>
      let su0 : List (String × String) :=
        if db.status.state = "" then [(StatePending, ("Yet to initialize"))]
        else []
      let inner := syncDatabaseLoaded env key ns db
      { inner with statusUpdates := su0 ++ inner.statusUpdates }

/-- C3: a Database with neither `ServerType` nor `Server` set is a
misconfiguration: `syncDatabase` records an Error status whose message
contains the reconciliation key, returns nil (no requeue), and never invokes
any plugin operation. -/
theorem syncDatabase_misconfiguration (env : Env) (key ns name : String)
    (db : Database)
    (hkey : splitMetaNamespaceKey key = Except.ok ((ns, name)))
    (hget : env.dbsGet ns name = Except.ok db)
    (hty : db.spec.serverType = "")
    (hsrv : db.spec.server = "") :
    (syncDatabase env key).ret = RunRet.ret none
    ∧ (∃ pre suf,
        (syncDatabase env key).statusUpdates
          = pre ++ [(StateError, "database \x27" ++ key ++ suf)]
        ∧ suf = "\x27 has no serverType or server set")
    ∧ (syncDatabase env key).pluginSyncCalls = []
    ∧ (syncDatabase env key).pluginDsnCalls = [] := by
  refine ⟨?_,
    ⟨(if db.status.state = "" then [(StatePending, ("Yet to initialize"))] else []),
      "\x27 has no serverType or server set", ?_, rfl⟩, ?_, ?_⟩ <;>
    simp [syncDatabase, syncDatabaseLoaded, hkey, hget, hty, hsrv]

/-- Witness for C3 at a concrete misconfigured Database. -/
theorem syncDatabase_misconfiguration_witness :
    (syncDatabase { envBase with dbsGet := fun _ _ => Except.ok dbBase }
        ("ns/db")).ret = RunRet.ret none
    ∧ (∃ pre suf,
        (syncDatabase { envBase with dbsGet := fun _ _ => Except.ok dbBase }
            ("ns/db")).statusUpdates
          = pre ++ [(StateError, "database \x27" ++ ("ns/db") ++ suf)]
        ∧ suf = "\x27 has no serverType or server set")
    ∧ (syncDatabase { envBase with dbsGet := fun _ _ => Except.ok dbBase }
        ("ns/db")).pluginSyncCalls = []
    ∧ (syncDatabase { envBase with dbsGet := fun _ _ => Except.ok dbBase }
        ("ns/db")).pluginDsnCalls = [] :=
  syncDatabase_misconfiguration
    { envBase with dbsGet := fun _ _ => Except.ok dbBase }
    ("ns/db") ("ns") ("db") dbBase rfl rfl rfl rfl

/-- The DSN-resolution block never consults the status-persistence function. -/
theorem resolveDsn_persistIndep (env : Env)
    (f : String → Database → Option GoErr) (key : String) (db : Database)
    (s : Option DatabaseServer) :
    resolveDsn { env with updateDatabase := f } key db s
      = resolveDsn env key db s := rfl

/-- The password loop never consults the status-persistence function. -/
theorem resolveUserPasswords_persistIndep (env : Env)
    (f : String → Database → Option GoErr) (ns : String) :
    ∀ us : List DBUser,
      resolveUserPasswords { env with updateDatabase := f } ns us
        = resolveUserPasswords env ns us := by
  intro us
  induction us with
  | nil => rfl
  | cons u rest ih => simp [resolveUserPasswords, ih]

/-- The admin-user creation loop discards every status-persistence result. -/
theorem secretUserLoop_persistIndep (env : Env)
    (f : String → Database → Option GoErr) (key : String) (db : Database)
    (dbServer : Option DatabaseServer) (dbPlugin : DatabasePlugin) :
    ∀ (us : List DBUser) (st : SecretLoopState),
      secretUserLoop { env with updateDatabase := f } key db dbServer dbPlugin
          us st
        = secretUserLoop env key db dbServer dbPlugin us st := by
  intro us
  induction us with
  | nil =>
    intro st
    rfl
  | cons u rest ih =>
    intro st
    simp [secretUserLoop, ih]

/-- The secret synchronizer discards every status-persistence result. -/
theorem syncDatabaseSecret_persistIndep (env : Env)
    (f : String → Database → Option GoErr) (key dsn : String) (db : Database)
    (dbServer : Option DatabaseServer) (dbPlugin : DatabasePlugin) :
    syncDatabaseSecret { env with updateDatabase := f } key dsn db dbServer
        dbPlugin
      = syncDatabaseSecret env key dsn db dbServer dbPlugin := by
  simp [syncDatabaseSecret, secretUserLoop_persistIndep]

/-- The loaded phase of `syncDatabase` discards every status-persistence
result. -/
theorem syncDatabaseLoaded_persistIndep (env : Env)
    (f : String → Database → Option GoErr) (key ns : String) (db : Database) :
    syncDatabaseLoaded { env with updateDatabase := f } key ns db
      = syncDatabaseLoaded env key ns db := by
  simp [syncDatabaseLoaded, resolveDsn_persistIndep,
    resolveUserPasswords_persistIndep, syncDatabaseSecret_persistIndep]

/-- C8: when the fetched Database has an unset status, `syncDatabase` records
the initial Pending status first, and — because the source discards every
`updateDatabaseStatus` return value inside `syncDatabase` — the whole result
is independent of the status-persistence function: a failed persistence of
the initial Pending status changes nothing about the rest of the attempt. -/
theorem syncDatabase_initialPending (env : Env) (key ns name : String)
    (db : Database)
    (hkey : splitMetaNamespaceKey key = Except.ok ((ns, name)))
    (hget : env.dbsGet ns name = Except.ok db)
    (hst : db.status.state = "") :
    (syncDatabase env key).statusUpdates.head?
      = some ((StatePending, ("Yet to initialize")))
    ∧ ∀ f, syncDatabase { env with updateDatabase := f } key
        = syncDatabase env key := by
  constructor
  · simp [syncDatabase, hkey, hget, hst]
  · intro f
    simp [syncDatabase, syncDatabaseLoaded_persistIndep]

/-- Witness for C8 at a concrete status-less Database. -/
theorem syncDatabase_initialPending_witness :
    (syncDatabase { envBase with dbsGet := fun _ _ => Except.ok dbBase }
        ("ns/db")).statusUpdates.head?
      = some ((StatePending, ("Yet to initialize")))
    ∧ ∀ f, syncDatabase
        { { envBase with dbsGet := fun _ _ => Except.ok dbBase } with
          updateDatabase := f } ("ns/db")
        = syncDatabase { envBase with dbsGet := fun _ _ => Except.ok dbBase }
            ("ns/db") :=
  syncDatabase_initialPending
    { envBase with dbsGet := fun _ _ => Except.ok dbBase }
    ("ns/db") ("ns") ("db") dbBase rfl rfl rfl

/-- The Database used to exhibit the password-loop cache mutation (C4). -/
def dbMut : Database :=
  { ns := "ns", name := "db", uid := "uid-1",
    spec := { server := "srv1", serverType := "",
              dsn := "postgres://u:p@h:5432/d", dsnFrom := none,
              users := some [⟨"alice", "admin", "old", some vsW⟩] },
    status := { state := "Pending", message := "" } }

/-- The environment used to exhibit the password-loop cache mutation (C4). -/
def envMut : Env :=
  { envBase with
    dbsGet := fun _ _ => Except.ok dbMut,
    serversGet := fun _ _ => Except.ok srvW,
    activePlugin := fun _ => some pluginW,
    getSecretFromValueSource := fun _ _ => ("newpw", none) }

/-- C4 (code bug): resolving a `PasswordFrom` reference writes the password
straight into the lister-cached Database's `Spec.Users` — there is no deep
copy.  At this input the attempt succeeds end to end, yet the cache-owned
object the routine's `db` pointer aliases ends the run with its user password
overwritten, contradicting the claimed frame property. -/
theorem syncDatabase_password_mutates_cache :
    (syncDatabase envMut ("ns/db")).finalDb ≠ some dbMut
    ∧ (syncDatabase envMut ("ns/db")).finalDb
        = some { dbMut with
            spec := { dbMut.spec with
              users := some [⟨"alice", "admin", "newpw", some vsW⟩] } }
    ∧ (syncDatabase envMut ("ns/db")).ret = RunRet.ret none := by
  refine ⟨?_, ?_, ?_⟩ <;> decide

/-- The serverless Database that makes the fallback DSN lookup read a nil
server pointer (C10). -/
def dbNilSrvA : Database :=
  { dbBase with
    spec := { dbBase.spec with serverType := "postgres" } }

/-- The serverless Database with a literal DSN whose Created-event message
reads a nil server pointer (C10). -/
def dbNilSrvB : Database :=
  { dbBase with
    spec := { dbBase.spec with
              serverType := "postgres",
              dsn := "postgres://u:p@h:1/d" } }

/-- C10: with empty `Spec.Server`, a `ServerType` that resolves to a plugin,
empty `Spec.Dsn` and nil `DsnFrom`, `syncDatabase` dereferences the nil
DatabaseServer pointer in the fallback server-secret DSN lookup (before any
lookup happens); and with a literal DSN and a plugin reporting `Created`, it
does the same while formatting the Created-event message (after the plugin
call, before any event is emitted).  Both paths are panic-free only when
`Spec.Server` is non-empty. -/
theorem syncDatabase_nilServer_panics :
    (syncDatabase { envBase with
        dbsGet := fun _ _ => Except.ok dbNilSrvA,
        newDBPlugin := fun _ => some pluginW } ("ns/db")).ret = RunRet.panicked
    ∧ (syncDatabase { envBase with
        dbsGet := fun _ _ => Except.ok dbNilSrvA,
        newDBPlugin := fun _ => some pluginW } ("ns/db")).dsnLookups = []
    ∧ (syncDatabase { envBase with
        dbsGet := fun _ _ => Except.ok dbNilSrvB,
        newDBPlugin := fun _ => some
          { pluginW with syncDatabase := fun _ _ => (StateCreated, none) } }
        ("ns/db")).ret = RunRet.panicked
    ∧ (syncDatabase { envBase with
        dbsGet := fun _ _ => Except.ok dbNilSrvB,
        newDBPlugin := fun _ => some
          { pluginW with syncDatabase := fun _ _ => (StateCreated, none) } }
        ("ns/db")).pluginSyncCalls ≠ []
    ∧ (syncDatabase { envBase with
        dbsGet := fun _ _ => Except.ok dbNilSrvB,
        newDBPlugin := fun _ => some
          { pluginW with syncDatabase := fun _ _ => (StateCreated, none) } }
        ("ns/db")).events = [] := by
  refine ⟨?_, ?_, ?_, ?_, ?_⟩ <;> decide

end AtlasDB
